import Mathlib

/-!
Verification of the LATACC MEDEVAC observer agent (lattac-medevac-v1).

Shallow embedding of the tool-calling runtime and the deterministic
medical domain functions:
  - cmop_observer/utils/__init__.py   (haversine_distance, estimate_ground_eta)
  - cmop_observer/tools/medical.py    (find_nearest_facility_by_role,
                                       check_10_1_2_compliance, get_mascal_summary)
  - latacc_common/tools/registry.py   (ToolRegistry)
  - latacc_common/models/enums.py     (FacilityRole)
  - cmop_observer/agent.py            (CMOPObserverAgent.run_loop)

Machine floats of the source are modelled over ℚ (exact arithmetic) where the
computation is compared against thresholds, and over ℝ for the trigonometric
haversine formula.
-/

namespace LataccMedevac

/-- Python `int()` applied to a real-valued quantity: truncation toward zero.
Embeds the `int(...)` conversions in `cmop_observer/utils` and
`cmop_observer/tools/medical.py`. -/
def pytrunc (q : ℚ) : ℤ := if q < 0 then ⌈q⌉ else ⌊q⌋

/-- Embeds `estimate_ground_eta` from `cmop_observer/utils/__init__.py`:
`distance_km = distance_m / 1_000; hours = distance_km / speed_kmh;
return max(1, int(hours * 60))`. Default speed in the source is 60 km/h. -/
def estimate_ground_eta (distance_m : ℚ) (speed_kmh : ℚ) : ℤ :=
  let distance_km := distance_m / 1000
  let hours := distance_km / speed_kmh
  max 1 (pytrunc (hours * 60))

/-- Modelled from the spec wording of the ground ETA estimate:
`minutes = max(1, round(distance_km / speed_kmh * 60))` — rounding to the
nearest integer rather than the truncation the source performs.  Used only to
compare the spec formula with `estimate_ground_eta`. -/
def estimate_ground_eta_round (distance_m : ℚ) (speed_kmh : ℚ) : ℤ :=
  max 1 (round (distance_m / 1000 / speed_kmh * 60))

/-- The `medical` sub-dictionary of a casualty entity, as read by
`check_10_1_2_compliance` and `get_mascal_summary` via `med.get(key, default)`:
a missing key is modelled by `none` and the source defaults are applied at
each read site. -/
structure MedDict where
  triage_color : Option String
  evac_stage : Option String
  casualty_status : Option String
  evac_priority : Option String
deriving DecidableEq

/-- RED-triage count of `get_mascal_summary`
(`triage_counts["RED"]` in `cmop_observer/tools/medical.py`). -/
def mascal_red_count (cs : List MedDict) : ℕ :=
  cs.countP (fun c => c.triage_color.getD "UNKNOWN" = "RED")

/-- MASCAL risk assessment of `get_mascal_summary`:
`if red >= 10 or total >= 30: "MASCAL_DECLARED" elif red >= 5 or total >= 15:
"MASCAL_WARNING" else: "NORMAL"` where `red = triage_counts["RED"]` and
`total = len(casualties)`. -/
def mascal_status (cs : List MedDict) : String :=
  if 10 ≤ mascal_red_count cs ∨ 30 ≤ cs.length then "MASCAL_DECLARED"
  else if 5 ≤ mascal_red_count cs ∨ 15 ≤ cs.length then "MASCAL_WARNING"
  else "NORMAL"

/-- The `risk_map` dictionary of `get_mascal_summary`. -/
def risk_map : List (String × String) :=
  [("MASCAL_DECLARED", "HIGH"), ("MASCAL_WARNING", "MODERATE"), ("NORMAL", "LOW")]

/-- `risk_map[mascal_status]`, the `overwhelmed_risk` field of the
assessment payload of `get_mascal_summary`. -/
def overwhelmed_risk (cs : List MedDict) : Option String :=
  risk_map.lookup (mascal_status cs)

/-- First recommendation string of `check_10_1_2_compliance`. -/
def rec_red_at_poi : String :=
  "URGENT: RED casualty still at POI after 30min — immediate forward MEDEVAC required"

/-- Second recommendation string of `check_10_1_2_compliance` (the 1-hour rule). -/
def rec_red_dcr : String :=
  "CRITICAL: RED casualty exceeds 1-hour DCR timeline — prioritize immediate surgical evacuation"

/-- Third recommendation string of `check_10_1_2_compliance` (the 2-hour rule). -/
def rec_dcs_violation : String :=
  "VIOLATION: 2-hour DCS timeline exceeded — escalate to MASCAL protocols"

/-- Fourth recommendation string of `check_10_1_2_compliance`. -/
def rec_urgent_at_poi : String :=
  "URGENT priority casualty still at POI — coordinate immediate evacuation asset"

/-- The `timeline` dictionary built by `check_10_1_2_compliance`. -/
structure ComplianceTimeline where
  first_aid_10min : String
  dcr_1hour : String
  dcs_2hour : String
deriving DecidableEq

/-- Timeline assessment of `check_10_1_2_compliance`
(`cmop_observer/tools/medical.py`, the 10-minute, 1-hour and 2-hour rules). -/
def assess_timeline (elapsed_minutes : ℤ) (med : MedDict) : ComplianceTimeline :=
  let triage := med.triage_color.getD "UNKNOWN"
  let evac_stage := med.evac_stage.getD "unknown"
  { first_aid_10min :=
      if elapsed_minutes ≤ 10 then "COMPLIANT"
      else if triage = "RED" then "VIOLATED" else "DELAYED"
  , dcr_1hour :=
      if elapsed_minutes ≤ 60 then "COMPLIANT"
      else if evac_stage = "in_transit" ∨ evac_stage = "delivered" then
        "COMPLIANT (en route or delivered)"
      else if triage = "RED" then "VIOLATED" else "AT_RISK"
  , dcs_2hour :=
      if elapsed_minutes ≤ 120 then "COMPLIANT"
      else if evac_stage = "delivered" then "COMPLIANT (delivered to facility)"
      else if triage = "RED" then "VIOLATED" else "AT_RISK" }

/-- Recommendation accumulation of `check_10_1_2_compliance`: the four
independent rules, in source order, followed by the
`recommendations or ["Timeline compliant"]` fallback. -/
def compliance_recommendations (elapsed_minutes : ℤ) (med : MedDict) : List String :=
  let triage := med.triage_color.getD "UNKNOWN"
  let evac_stage := med.evac_stage.getD "unknown"
  let evac_priority := med.evac_priority.getD "UNKNOWN"
  let recs :=
    (if triage = "RED" ∧ evac_stage = "at_poi" ∧ 30 < elapsed_minutes then
      [rec_red_at_poi] else [])
    ++ (if triage = "RED" ∧ 60 < elapsed_minutes ∧ evac_stage ≠ "delivered" then
      [rec_red_dcr] else [])
    ++ (if (triage = "RED" ∨ triage = "YELLOW") ∧ 120 < elapsed_minutes ∧
          evac_stage ≠ "delivered" then
      [rec_dcs_violation] else [])
    ++ (if evac_priority = "URGENT" ∧ evac_stage = "at_poi" ∧ 15 < elapsed_minutes then
      [rec_urgent_at_poi] else [])
  if recs = [] then ["Timeline compliant"] else recs

/-- Result of the post-parsing part of `check_10_1_2_compliance`: either the
KIA short-circuit, or the assessed timeline with recommendations. -/
inductive ComplianceOutcome where
  | kia
  | assessed (timeline : ComplianceTimeline) (recommendations : List String)
deriving DecidableEq

/-- Core of `check_10_1_2_compliance` once the entity and its timestamp have
been fetched and parsed: the KIA short-circuit (`casualty_status == "KIA"`)
followed by the timeline assessment and the recommendation rules. -/
def check_10_1_2_core (elapsed_minutes : ℤ) (med : MedDict) : ComplianceOutcome :=
  if med.casualty_status.getD "UNKNOWN" = "KIA" then ComplianceOutcome.kia
  else ComplianceOutcome.assessed (assess_timeline elapsed_minutes med)
    (compliance_recommendations elapsed_minutes med)

/-- The concrete casualty record of the C7 scenario: RED triage, at the point
of injury, wounded in action. -/
def redAtPoi : MedDict :=
  { triage_color := some "RED", evac_stage := some "at_poi"
  , casualty_status := some "WIA", evac_priority := some "UNKNOWN" }

/-! ## Tool registry (latacc_common/tools/registry.py) -/

/-- Behaviour of a registered tool body once keyword binding has succeeded:
it returns a value, raises `TypeError`, or raises some other exception
(`registry.py` distinguishes exactly these three cases). -/
inductive PyOutcome where
  | ret (v : ℕ)
  | typeError (msg : String)
  | otherExc (msg : String)

/-- A registered Python callable as the registry sees it: its `__name__`, its
keyword parameters (those without a default, in signature order, followed by
those with one — Python requires non-default parameters first), and the
behaviour of its body on bound arguments. -/
structure PyFunc where
  name : String
  required : List String
  optional : List String
  body : List (String × ℕ) → PyOutcome

/-- The OpenAI-style descriptor built by `ToolRegistry._build_schema`:
function name, parameter names in signature order, and the required subset. -/
structure ToolSchema where
  name : String
  properties : List String
  required : List String
deriving DecidableEq

/-- Embeds `ToolRegistry._build_schema`: every keyword parameter becomes a
property and the parameters without a default are listed as required. -/
def buildSchema (f : PyFunc) : ToolSchema :=
  { name := f.name, properties := f.required ++ f.optional, required := f.required }

/-- The registry state: `_tools` is an insertion-ordered dictionary from tool
name to callable, `_schemas` is the list the `register` method appends to. -/
structure ToolRegistry where
  tools : List (String × PyFunc)
  schemas : List ToolSchema

/-- `ToolRegistry.__init__`: empty tool dictionary, empty schema list. -/
def emptyRegistry : ToolRegistry := { tools := [], schemas := [] }

/-- Python dictionary assignment `d[k] = v`: overwriting an existing key keeps
its original position, a new key is appended. -/
def dictInsert {α : Type} (d : List (String × α)) (k : String) (v : α) :
    List (String × α) :=
  if d.any (fun p => p.1 == k) then
    d.map (fun p => if p.1 == k then (k, v) else p)
  else d ++ [(k, v)]

/-- Embeds `ToolRegistry.register`: `self._tools[name] = func` (overwrite is
allowed and merely logged) and `self._schemas.append(self._build_schema(func))`
— the append is unconditional, even when the name was already registered. -/
def ToolRegistry.register (reg : ToolRegistry) (f : PyFunc) : ToolRegistry :=
  { tools := dictInsert reg.tools f.name f
  , schemas := reg.schemas ++ [buildSchema f] }

/-- `ToolRegistry.tool_names`: the keys of the tool dictionary, in order. -/
def ToolRegistry.tool_names (reg : ToolRegistry) : List String :=
  reg.tools.map Prod.fst

/-- Dictionary lookup `self._tools[name]` / `name in self._tools`. -/
def lookupTool (reg : ToolRegistry) (name : String) : Option PyFunc :=
  reg.tools.lookup name

/-- A sequence of `register` calls, in order. -/
def registerAll (reg : ToolRegistry) (fs : List PyFunc) : ToolRegistry :=
  fs.foldl ToolRegistry.register reg

/-- Python keyword binding `func(**arguments)` succeeds exactly when every
parameter without a default receives a key and every key names a parameter;
any violation (wrong, missing or extra keys, wrong arity) raises `TypeError`
at the call site. -/
def bindOk (f : PyFunc) (argKeys : List String) : Bool :=
  f.required.all (fun p => argKeys.contains p) &&
    argKeys.all (fun k => f.required.contains k || f.optional.contains k)

/-- The error envelope dictionaries built in `ToolRegistry.execute`
(`success`, `error`, `message`, `action`). -/
structure Envelope where
  success : Bool
  error : String
  message : String
  action : String
deriving DecidableEq

/-- Outcome of `ToolRegistry.execute` as seen by its caller: an exception
propagates out, the tool return value passes through unchanged, or one of the
two synthesized error envelopes is returned. -/
inductive ExecResult where
  | raised (msg : String)
  | value (v : ℕ)
  | envelope (e : Envelope)
deriving DecidableEq

/-- The `KeyError` message of `ToolRegistry.execute` for an unknown name. -/
def unknown_tool_message (name : String) : String :=
  "Unknown tool " ++ name

/-- The `INVALID_ARGUMENTS` envelope of `ToolRegistry.execute`. -/
def invalidArgumentsEnvelope (name : String) : Envelope :=
  { success := false, error := "INVALID_ARGUMENTS"
  , message := "Tool " ++ name ++ " received invalid arguments"
  , action := "correct" }

/-- The `TOOL_EXECUTION_ERROR` envelope of `ToolRegistry.execute`. -/
def toolExecutionErrorEnvelope (name : String) (m : String) : Envelope :=
  { success := false, error := "TOOL_EXECUTION_ERROR"
  , message := "Tool " ++ name ++ " failed: " ++ m
  , action := "retry" }

/-- Embeds `ToolRegistry.execute`: raise `KeyError` when the name is not
registered; otherwise call `func(**arguments)` — a keyword-binding failure is
a `TypeError`, and the source catches `TypeError` into the
`INVALID_ARGUMENTS`/`correct` envelope and every other `Exception` into the
`TOOL_EXECUTION_ERROR`/`retry` envelope, while a successful result passes
through unchanged. -/
def ToolRegistry.execute (reg : ToolRegistry) (name : String)
    (args : List (String × ℕ)) : ExecResult :=
  match lookupTool reg name with
  | none => ExecResult.raised (unknown_tool_message name)
  | some f =>
    if bindOk f (args.map Prod.fst) then
      match f.body args with
      | PyOutcome.ret v => ExecResult.value v
      | PyOutcome.typeError _ => ExecResult.envelope (invalidArgumentsEnvelope name)
      | PyOutcome.otherExc m =>
          ExecResult.envelope (toolExecutionErrorEnvelope name m)
    else
      ExecResult.envelope (invalidArgumentsEnvelope name)

/-! ## Agent loop (cmop_observer/agent.py) -/

/-- A tool call issued by the model inside one assistant message: either the
registered `done` tool with its `summary` argument, or any other tool. The
`done` body sets `self._done_result = summary`; no other registered tool
touches that field. -/
inductive MCall where
  | done (summary : String)
  | other (name : String)
deriving DecidableEq

/-- One assistant message returned by the LLM call: text content and the
(possibly empty) list of tool calls, in issuance order. -/
structure MResponse where
  content : String
  tool_calls : List MCall
deriving DecidableEq

/-- The agent state relevant to `run_loop`: the `_done_result` field. -/
structure AgentState where
  done_result : Option String
deriving DecidableEq

/-- The fixed string `run_loop` returns when the iteration cap is exhausted. -/
def incompleteMsg : String :=
  "⚠️ Analysis incomplete — agent exceeded iteration limit."

/-- Executes the tool calls of one turn in order, threading `_done_result`:
a `done` call sets it to its summary, and after every call the loop checks
`if self._done_result is not None: return self._done_result`.  Returns the
value returned early (if any) and the final `_done_result` state. -/
def runCalls : List MCall → Option String → Option String × Option String
  | [], st => (none, st)
  | c :: rest, st =>
    let st1 := match c with
      | MCall.done s => some s
      | MCall.other _ => st
    match st1 with
    | some v => (some v, st1)
    | none => runCalls rest st1

/-- The `for iteration in range(1, max_iterations + 1)` loop of `run_loop`:
one LLM call per turn; a response without tool calls returns its content;
otherwise the tool calls run in order with the done-check after each; when
the fuel is exhausted the fixed incomplete message is returned. The model is
abstracted as a function from the turn number to the assistant message. -/
def loopIter (b : ℕ → MResponse) : ℕ → ℕ → Option String → String
  | _, 0, _ => incompleteMsg
  | turn, fuel + 1, st =>
    let m := b turn
    if m.tool_calls = [] then m.content
    else
      match runCalls m.tool_calls st with
      | (some v, _) => v
      | (none, st1) => loopIter b (turn + 1) fuel st1

/-- Embeds `CMOPObserverAgent.run_loop`: line 89 resets
`self._done_result = None` before the iteration loop starts, whatever the
field held before the call. -/
def run_loop (_a : AgentState) (b : ℕ → MResponse) (max_iterations : ℕ) : String :=
  loopIter b 1 max_iterations none

/-- The summary carried by the first `done` call of a call list, if any. -/
def firstDone : List MCall → Option String
  | [] => none
  | MCall.done s :: _ => some s
  | MCall.other _ :: rest => firstDone rest

/-! ## Geographic utilities (cmop_observer/utils) and facility roles -/

/-- `math.radians`: degrees to radians. -/
noncomputable def radians (deg : ℝ) : ℝ := deg * (Real.pi / 180)

/-- Embeds `haversine_distance` from `cmop_observer/utils/__init__.py`:
convert the four coordinates to radians, apply the haversine formula with
Earth radius 6 371 000 m.  The machine floats of the source are modelled as
real numbers. -/
noncomputable def haversine_distance (lon1 lat1 lon2 lat2 : ℝ) : ℝ :=
  2 * Real.arcsin (Real.sqrt
      (Real.sin ((radians lat2 - radians lat1) / 2) ^ 2 +
        Real.cos (radians lat1) * Real.cos (radians lat2) *
          Real.sin ((radians lon2 - radians lon1) / 2) ^ 2)) * 6371000

/-- `FacilityRole` from `latacc_common/models/enums.py`. -/
inductive FacilityRole where
  | role_1
  | role_2
  | role_2_basic
  | role_2_enhanced
  | role_3
  | role_4
  | multinational
deriving DecidableEq

/-- The string value of each `FacilityRole` member. -/
def FacilityRole.value : FacilityRole → String
  | FacilityRole.role_1 => "medical_role_1"
  | FacilityRole.role_2 => "medical_role_2"
  | FacilityRole.role_2_basic => "medical_role_2basic"
  | FacilityRole.role_2_enhanced => "medical_role_2enhanced"
  | FacilityRole.role_3 => "medical_role_3"
  | FacilityRole.role_4 => "medical_role_4"
  | FacilityRole.multinational => "medical_facility_multinational"

/-- The enum constructor `FacilityRole(tipo)`: `none` models the `ValueError`
raised on a string that is no member value. -/
def FacilityRole.fromString (s : String) : Option FacilityRole :=
  if s = "medical_role_1" then some FacilityRole.role_1
  else if s = "medical_role_2" then some FacilityRole.role_2
  else if s = "medical_role_2basic" then some FacilityRole.role_2_basic
  else if s = "medical_role_2enhanced" then some FacilityRole.role_2_enhanced
  else if s = "medical_role_3" then some FacilityRole.role_3
  else if s = "medical_role_4" then some FacilityRole.role_4
  else if s = "medical_facility_multinational" then some FacilityRole.multinational
  else none

/-- `FacilityRole.level`: the numeric level dictionary of the source. -/
def FacilityRole.level : FacilityRole → ℤ
  | FacilityRole.role_1 => 1
  | FacilityRole.role_2 => 2
  | FacilityRole.role_2_basic => 2
  | FacilityRole.role_2_enhanced => 2
  | FacilityRole.role_3 => 3
  | FacilityRole.role_4 => 4
  | FacilityRole.multinational => 3

/-- The `try: FacilityRole(tipo).level except ValueError: role_level = 0`
block of `find_nearest_facility_by_role`. -/
def roleLevelOf (tipo : String) : ℤ :=
  ((FacilityRole.fromString tipo).map FacilityRole.level).getD 0

/-! ## Nearest-facility search (cmop_observer/tools/medical.py) -/

/-- An entity as returned by a successful nearby-entities fetch: the fields
`find_nearest_facility_by_role` reads.  Coordinates are modelled over ℚ. -/
structure Entity where
  id : ℤ
  categoria : String
  tipo_elemento : String
  nombre : String
  latitud : ℚ
  longitud : ℚ
  country : String
  alliance : String
deriving DecidableEq

/-- The per-facility dictionary `find_nearest_facility_by_role` appends to
`eligible`. -/
structure FacilityRecord where
  id : ℤ
  name : String
  role : String
  role_level : ℤ
  distance_m : ℤ
  eta_minutes : ℤ
  latitude : ℚ
  longitude : ℚ
  country : String
  alliance : String
deriving DecidableEq, Inhabited

/-- The return dictionary of `find_nearest_facility_by_role`: success flag,
optional `{nearest, alternatives}` payload, optional message and action. -/
structure FindEnvelope where
  success : Bool
  data : Option (FacilityRecord × List FacilityRecord)
  message : Option String
  action : Option String
deriving DecidableEq

/-- The `facilities` filter: entities whose `categoria` is
`"medical_facility"`. -/
def facilitiesOf (entities : List Entity) : List Entity :=
  entities.filter (fun e => e.categoria = "medical_facility")

/-- Builds one `eligible` record.  `dist f` is the exact value of
`haversine_distance(casualty_lng, casualty_lat, f["longitud"], f["latitud"])`
for the fixed casualty position, passed as a function so that the
trigonometric float computation stays abstract while every downstream
conversion (`int(dist)`, `estimate_ground_eta(dist)`) is embedded exactly. -/
def mkFacilityRecord (dist : Entity → ℚ) (f : Entity) : FacilityRecord :=
  { id := f.id, name := f.nombre, role := f.tipo_elemento
  , role_level := roleLevelOf f.tipo_elemento
  , distance_m := pytrunc (dist f)
  , eta_minutes := estimate_ground_eta (dist f) 60
  , latitude := f.latitud, longitude := f.longitud
  , country := f.country, alliance := f.alliance }

/-- The `eligible` list: facilities whose resolved role level meets
`min_role`, each turned into its record. -/
def eligibleOf (dist : Entity → ℚ) (min_role : ℤ) (entities : List Entity) :
    List FacilityRecord :=
  ((facilitiesOf entities).filter
    (fun f => min_role ≤ roleLevelOf f.tipo_elemento)).map (mkFacilityRecord dist)

/-- The sort key of `eligible.sort(key=lambda x: x["distance_m"])`. -/
def byDistance (a b : FacilityRecord) : Prop := a.distance_m ≤ b.distance_m

instance : DecidableRel byDistance := fun a b =>
  inferInstanceAs (Decidable (a.distance_m ≤ b.distance_m))

/-- Embeds `find_nearest_facility_by_role` after a successful nearby-entities
fetch returning `entities`: filter to medical facilities (empty → the
null-data inform envelope), filter by role floor (empty → the other null-data
inform envelope), sort the survivors ascending by `distance_m` (Python
`list.sort` is a stable sort, modelled by the stable `insertionSort`) and
return `eligible[0]` as nearest with `eligible[1:4]` as alternatives. -/
def find_nearest_facility_by_role (dist : Entity → ℚ) (min_role : ℤ)
    (max_distance_m : ℤ) (entities : List Entity) : FindEnvelope :=
  let facilities := facilitiesOf entities
  if facilities = [] then
    { success := true, data := none
    , message := some ("No medical facilities found within "
        ++ toString max_distance_m ++ "m")
    , action := some "inform" }
  else
    let eligible := eligibleOf dist min_role entities
    if eligible = [] then
      { success := true, data := none
      , message := some ("No Role " ++ toString min_role ++ "+ facilities within "
          ++ toString max_distance_m ++ "m")
      , action := some "inform" }
    else
      match List.insertionSort byDistance eligible with
      | [] =>
        -- unreachable: a sort permutes its input, and eligible is nonempty
        { success := true, data := none, message := none, action := some "inform" }
      | n :: rest =>
        { success := true, data := some (n, rest.take 3)
        , message := none, action := none }

/-- The `eligible` list after `eligible.sort(key=lambda x: x["distance_m"])`. -/
def sortedEligible (dist : Entity → ℚ) (min_role : ℤ) (entities : List Entity) :
    List FacilityRecord :=
  List.insertionSort byDistance (eligibleOf dist min_role entities)

instance : IsTotal FacilityRecord byDistance :=
  ⟨fun a b => Int.le_total a.distance_m b.distance_m⟩

instance : IsTrans FacilityRecord byDistance :=
  ⟨fun _ _ _ h1 h2 => le_trans h1 h2⟩

/-! ## Concrete fixtures used by the witnesses -/

/-- A RED at-POI casualty record. -/
def redCas : MedDict :=
  { triage_color := some "RED", evac_stage := some "at_poi"
  , casualty_status := some "WIA", evac_priority := some "URGENT" }

/-- A YELLOW at-POI casualty record. -/
def yellowCas : MedDict :=
  { triage_color := some "YELLOW", evac_stage := some "at_poi"
  , casualty_status := some "WIA", evac_priority := some "PRIORITY" }

/-- A registered tool with one required keyword parameter `a`. -/
def sampleFunc : PyFunc :=
  { name := "sample_tool", required := ["a"], optional := []
  , body := fun _ => PyOutcome.ret 0 }

/-- A registry holding exactly `sampleFunc`. -/
def sampleReg : ToolRegistry := emptyRegistry.register sampleFunc

/-- First of two distinct callables sharing the name `dup_tool`. -/
def dupFuncA : PyFunc :=
  { name := "dup_tool", required := [], optional := ["x"]
  , body := fun _ => PyOutcome.ret 1 }

/-- Second of two distinct callables sharing the name `dup_tool`. -/
def dupFuncB : PyFunc :=
  { name := "dup_tool", required := ["y"], optional := []
  , body := fun _ => PyOutcome.ret 2 }

/-- A simulated model that issues an ordinary tool call on every turn except
turn 3, where it calls an ordinary tool, then `done` with summary `X`, then
one further call that must never run. -/
def doneAtThree : ℕ → MResponse := fun t =>
  if t = 3 then
    { content := ""
    , tool_calls := [MCall.other "get_mascal_summary", MCall.done "X",
        MCall.other "get_entity"] }
  else { content := "thinking", tool_calls := [MCall.other "get_mascal_summary"] }

/-- A simulated model that issues a non-done tool call on every turn. -/
def neverDone : ℕ → MResponse := fun _ =>
  { content := "partial text", tool_calls := [MCall.other "get_entity"] }

/-- A simulated model that answers in plain text, with no tool calls. -/
def noCalls : ℕ → MResponse := fun _ =>
  { content := "final answer", tool_calls := [] }

/-- A concrete distance oracle for the nearest-facility witness. -/
def wdist : Entity → ℚ := fun e => (e.id : ℚ) * 1000

/-- Concrete nearby entities: three medical facilities of roles 2, 1 and 3
plus one non-facility entity. -/
def wEnts : List Entity :=
  [ { id := 7, categoria := "medical_facility", tipo_elemento := "medical_role_2"
    , nombre := "Role 2 Alpha", latitud := 1, longitud := 2
    , country := "ESP", alliance := "friendly" }
  , { id := 3, categoria := "medical_facility", tipo_elemento := "medical_role_1"
    , nombre := "Role 1 Bravo", latitud := 3, longitud := 4
    , country := "ESP", alliance := "friendly" }
  , { id := 5, categoria := "unit", tipo_elemento := "infantry"
    , nombre := "Unit Charlie", latitud := 5, longitud := 6
    , country := "ESP", alliance := "friendly" }
  , { id := 9, categoria := "medical_facility", tipo_elemento := "medical_role_3"
    , nombre := "Role 3 Delta", latitud := 7, longitud := 8
    , country := "ESP", alliance := "friendly" } ]

/-! ## Theorems -/

/-- C5, counterexample: at `distance_m = 1900` and the default speed of
60 km/h the travel time is 1.9 minutes; the source truncates (`int`) and
returns 1 minute, while the claimed formula `max(1, round(...))` yields 2. -/
theorem c5_eta_round_counterexample :
    estimate_ground_eta 1900 60 = 1 ∧ estimate_ground_eta_round 1900 60 = 2 ∧
      estimate_ground_eta 1900 60 ≠ estimate_ground_eta_round 1900 60 := by
  have hq : ((1900 : ℚ) / 1000 / 60 * 60) = 19 / 10 := by norm_num
  have h1 : estimate_ground_eta 1900 60 = 1 := by
    simp only [estimate_ground_eta, pytrunc, hq]
    rw [if_neg (by norm_num : ¬((19 : ℚ) / 10 < 0))]
    rw [show (⌊(19 / 10 : ℚ)⌋ : ℤ) = 1 from by norm_num]
    norm_num
  have h2 : estimate_ground_eta_round 1900 60 = 2 := by
    simp only [estimate_ground_eta_round, hq, round_eq]
    rw [show (⌊(19 / 10 : ℚ) + 1 / 2⌋ : ℤ) = 2 from by norm_num]
    norm_num
  refine ⟨h1, h2, by rw [h1, h2]; decide⟩

/-- C5, amended: for every distance and positive speed,
`estimate_ground_eta` returns `max(1, trunc(distance_km / speed_kmh * 60))`
minutes — truncation toward zero rather than rounding — and the result is
always at least 1 minute. -/
theorem c5_eta_truncates (distance_m speed_kmh : ℚ) (_h : 0 < speed_kmh) :
    estimate_ground_eta distance_m speed_kmh
      = max 1 (pytrunc (distance_m / 1000 / speed_kmh * 60))
    ∧ 1 ≤ estimate_ground_eta distance_m speed_kmh := by
  constructor
  · rfl
  · simp only [estimate_ground_eta]
    exact le_max_left 1 _

/-- Witness for the amended C5 at `distance_m = 1900`, `speed_kmh = 60`. -/
theorem c5_eta_truncates_witness :
    0 < (60 : ℚ)
    ∧ (estimate_ground_eta 1900 60 = max 1 (pytrunc ((1900 : ℚ) / 1000 / 60 * 60))
        ∧ 1 ≤ estimate_ground_eta 1900 60) :=
  ⟨by norm_num, c5_eta_truncates 1900 60 (by norm_num)⟩

/-- C9: `haversine_distance` is symmetric in its two coordinate pairs, and
the distance from a point to itself is zero. -/
theorem c9_haversine_symm_self (lon1 lat1 lon2 lat2 : ℝ) :
    haversine_distance lon1 lat1 lon2 lat2 = haversine_distance lon2 lat2 lon1 lat1
    ∧ haversine_distance lon1 lat1 lon1 lat1 = 0 := by
  have key : ∀ x y : ℝ, Real.sin ((x - y) / 2) ^ 2 = Real.sin ((y - x) / 2) ^ 2 := by
    intro x y
    rw [show (x - y) / 2 = -((y - x) / 2) by ring, Real.sin_neg]
    ring
  constructor
  · unfold haversine_distance
    rw [key (radians lat2) (radians lat1), key (radians lon2) (radians lon1),
      mul_comm (Real.cos (radians lat1)) (Real.cos (radians lat2))]
  · simp [haversine_distance]

/-- C6: `get_mascal_summary` declares MASCAL exactly when the RED count is at
least 10 or the total at least 30, warns exactly when (short of that) the RED
count is at least 5 or the total at least 15, is NORMAL otherwise; the risk
label is the fixed status→risk mapping; and the two concrete thresholds of
the spec hold: RED=9/total=29 warns, RED=10/total=10 declares. -/
theorem c6_mascal_thresholds (cs : List MedDict) :
    (mascal_status cs = "MASCAL_DECLARED" ↔
      10 ≤ mascal_red_count cs ∨ 30 ≤ cs.length)
    ∧ (mascal_status cs = "MASCAL_WARNING" ↔
      ¬(10 ≤ mascal_red_count cs ∨ 30 ≤ cs.length)
        ∧ (5 ≤ mascal_red_count cs ∨ 15 ≤ cs.length))
    ∧ (mascal_status cs = "NORMAL" ↔
      ¬(10 ≤ mascal_red_count cs ∨ 30 ≤ cs.length)
        ∧ ¬(5 ≤ mascal_red_count cs ∨ 15 ≤ cs.length))
    ∧ (mascal_status cs = "MASCAL_DECLARED" → overwhelmed_risk cs = some "HIGH")
    ∧ (mascal_status cs = "MASCAL_WARNING" → overwhelmed_risk cs = some "MODERATE")
    ∧ (mascal_status cs = "NORMAL" → overwhelmed_risk cs = some "LOW")
    ∧ mascal_status (List.replicate 9 redCas ++ List.replicate 20 yellowCas)
        = "MASCAL_WARNING"
    ∧ mascal_status (List.replicate 10 redCas) = "MASCAL_DECLARED" := by
  by_cases h1 : 10 ≤ mascal_red_count cs ∨ 30 ≤ cs.length <;>
    by_cases h2 : 5 ≤ mascal_red_count cs ∨ 15 ≤ cs.length <;>
      refine ⟨?_, ?_, ?_, ?_, ?_, ?_, by decide, by decide⟩ <;>
        simp [mascal_status, overwhelmed_risk, risk_map, h1, h2, List.lookup]

/-- Witness for C6 at a concrete casualty set (12 RED casualties). -/
theorem c6_mascal_thresholds_witness :
    mascal_status (List.replicate 12 redCas) = "MASCAL_DECLARED"
    ∧ overwhelmed_risk (List.replicate 12 redCas) = some "HIGH" := by
  have h := c6_mascal_thresholds (List.replicate 12 redCas)
  have hs : mascal_status (List.replicate 12 redCas) = "MASCAL_DECLARED" :=
    h.1.mpr (Or.inl (by decide))
  exact ⟨hs, h.2.2.2.1 hs⟩

/-- C7: for a non-deceased casualty `check_10_1_2_compliance` assesses the
timeline; its 1-hour check is COMPLIANT when at most 60 minutes have elapsed,
is reported compliant retroactively past 60 minutes when the evac stage is
in_transit or delivered, and otherwise is VIOLATED for RED triage and AT_RISK
for every other triage; concretely, 90 minutes / RED / at_poi yields
dcr_1hour = VIOLATED together with the accumulated recommendation that names
the 1-hour DCR timeline. -/
theorem c7_dcr_one_hour (elapsed_minutes : ℤ) (med : MedDict)
    (hkia : med.casualty_status.getD "UNKNOWN" ≠ "KIA") :
    check_10_1_2_core elapsed_minutes med
      = ComplianceOutcome.assessed (assess_timeline elapsed_minutes med)
          (compliance_recommendations elapsed_minutes med)
    ∧ (elapsed_minutes ≤ 60 →
        (assess_timeline elapsed_minutes med).dcr_1hour = "COMPLIANT")
    ∧ (60 < elapsed_minutes →
        (med.evac_stage.getD "unknown" = "in_transit"
          ∨ med.evac_stage.getD "unknown" = "delivered") →
        (assess_timeline elapsed_minutes med).dcr_1hour
          = "COMPLIANT (en route or delivered)")
    ∧ (60 < elapsed_minutes →
        ¬(med.evac_stage.getD "unknown" = "in_transit"
          ∨ med.evac_stage.getD "unknown" = "delivered") →
        med.triage_color.getD "UNKNOWN" = "RED" →
        (assess_timeline elapsed_minutes med).dcr_1hour = "VIOLATED")
    ∧ (60 < elapsed_minutes →
        ¬(med.evac_stage.getD "unknown" = "in_transit"
          ∨ med.evac_stage.getD "unknown" = "delivered") →
        med.triage_color.getD "UNKNOWN" ≠ "RED" →
        (assess_timeline elapsed_minutes med).dcr_1hour = "AT_RISK")
    ∧ (assess_timeline 90 redAtPoi).dcr_1hour = "VIOLATED"
    ∧ rec_red_dcr ∈ compliance_recommendations 90 redAtPoi := by
  refine ⟨?_, ?_, ?_, ?_, ?_, by decide, by decide⟩
  · simp [check_10_1_2_core, hkia]
  · intro h
    simp [assess_timeline, if_pos h]
  · intro h1 h2
    simp only [assess_timeline]
    rw [if_neg (by omega), if_pos h2]
  · intro h1 h2 h3
    simp only [assess_timeline]
    rw [if_neg (by omega), if_neg h2, if_pos h3]
  · intro h1 h2 h3
    simp only [assess_timeline]
    rw [if_neg (by omega), if_neg h2, if_neg h3]

/-- Witness for C7: the concrete 90-minute RED at-POI casualty scenario. -/
theorem c7_dcr_one_hour_witness :
    redAtPoi.casualty_status.getD "UNKNOWN" ≠ "KIA"
    ∧ check_10_1_2_core 90 redAtPoi
        = ComplianceOutcome.assessed (assess_timeline 90 redAtPoi)
            (compliance_recommendations 90 redAtPoi)
    ∧ (assess_timeline 90 redAtPoi).dcr_1hour = "VIOLATED"
    ∧ rec_red_dcr ∈ compliance_recommendations 90 redAtPoi := by
  have h := c7_dcr_one_hour 90 redAtPoi (by decide)
  exact ⟨by decide, h.1, h.2.2.2.2.2.1, h.2.2.2.2.2.2⟩

/-- Helper: an association-list lookup misses exactly the keys outside the
key list. -/
theorem lookup_eq_none_of_not_mem {α : Type} (l : List (String × α)) (k : String)
    (h : k ∉ l.map Prod.fst) : l.lookup k = none := by
  induction l with
  | nil => rfl
  | cons p rest ih =>
    obtain ⟨k1, v1⟩ := p
    have hk : k ≠ k1 := by
      intro he
      exact h (by simp [he])
    simp only [List.lookup, beq_eq_false_iff_ne.mpr hk]
    exact ih (fun hm => h (by simp at hm ⊢; exact Or.inr hm))

/-- Helper: an association-list lookup hits every key of the key list. -/
theorem lookup_isSome_of_mem {α : Type} (l : List (String × α)) (k : String)
    (h : k ∈ l.map Prod.fst) : ∃ v, l.lookup k = some v := by
  induction l with
  | nil => simp at h
  | cons p rest ih =>
    obtain ⟨k1, v1⟩ := p
    by_cases hk : k = k1
    · exact ⟨v1, by simp [List.lookup, hk]⟩
    · simp only [List.lookup, beq_eq_false_iff_ne.mpr hk]
      refine ih ?_
      simp only [List.map_cons, List.mem_cons] at h
      exact h.resolve_left hk

/-- C1: when a registered tool is dispatched with an argument mapping whose
keys do not bind to its keyword parameters, `ToolRegistry.execute` returns
the `{success: false, error: INVALID_ARGUMENTS, action: correct}` envelope —
it never lets the binding `TypeError` escape to the caller. -/
theorem c1_invalid_arguments_envelope (reg : ToolRegistry) (name : String)
    (f : PyFunc) (args : List (String × ℕ))
    (hf : lookupTool reg name = some f)
    (hbind : bindOk f (args.map Prod.fst) = false) :
    reg.execute name args = ExecResult.envelope (invalidArgumentsEnvelope name)
    ∧ (invalidArgumentsEnvelope name).success = false
    ∧ (invalidArgumentsEnvelope name).error = "INVALID_ARGUMENTS"
    ∧ (invalidArgumentsEnvelope name).action = "correct" := by
  refine ⟨?_, rfl, rfl, rfl⟩
  simp [ToolRegistry.execute, hf, hbind]

/-- Witness for C1: `sample_tool` requires parameter `a`; the mapping with
lone key `b` fails to bind and yields the INVALID_ARGUMENTS envelope. -/
theorem c1_invalid_arguments_envelope_witness :
    lookupTool sampleReg "sample_tool" = some sampleFunc
    ∧ bindOk sampleFunc (([(("b" : String), (0 : ℕ))]).map Prod.fst) = false
    ∧ (sampleReg.execute "sample_tool" [("b", 0)]
          = ExecResult.envelope (invalidArgumentsEnvelope "sample_tool")
        ∧ (invalidArgumentsEnvelope "sample_tool").success = false
        ∧ (invalidArgumentsEnvelope "sample_tool").error = "INVALID_ARGUMENTS"
        ∧ (invalidArgumentsEnvelope "sample_tool").action = "correct") :=
  ⟨rfl, rfl, c1_invalid_arguments_envelope sampleReg "sample_tool" sampleFunc
    [("b", 0)] rfl rfl⟩

/-- C2: dispatching a name that is not registered raises the fatal
unknown-tool `KeyError` — `execute` never turns it into an envelope — while
for a registered name `execute` never raises: the body of a registered tool
is always caught into a returned value or envelope. -/
theorem c2_unknown_tool_raises (reg : ToolRegistry) (name : String)
    (args : List (String × ℕ)) :
    (name ∉ reg.tool_names →
      reg.execute name args = ExecResult.raised (unknown_tool_message name))
    ∧ (name ∈ reg.tool_names →
      ∀ m, reg.execute name args ≠ ExecResult.raised m) := by
  constructor
  · intro h
    have hl : lookupTool reg name = none :=
      lookup_eq_none_of_not_mem reg.tools name h
    simp [ToolRegistry.execute, hl]
  · intro h m
    obtain ⟨f, hf⟩ := lookup_isSome_of_mem reg.tools name h
    have hf2 : lookupTool reg name = some f := hf
    simp only [ToolRegistry.execute, hf2]
    cases hb : bindOk f (args.map Prod.fst)
    · simp [hb]
    · simp only [hb, if_pos rfl]
      cases f.body args <;> simp

/-- Witness for C2: the unregistered name `ghost_tool` raises, the registered
name `sample_tool` does not. -/
theorem c2_unknown_tool_raises_witness :
    ("ghost_tool" ∉ sampleReg.tool_names
      ∧ sampleReg.execute "ghost_tool" []
          = ExecResult.raised (unknown_tool_message "ghost_tool"))
    ∧ ("sample_tool" ∈ sampleReg.tool_names
      ∧ sampleReg.execute "sample_tool" [("a", 1)]
          ≠ ExecResult.raised (unknown_tool_message "sample_tool")) := by
  refine ⟨⟨by decide, ?_⟩, ⟨by decide, ?_⟩⟩
  · exact (c2_unknown_tool_raises sampleReg "ghost_tool" []).1 (by decide)
  · exact (c2_unknown_tool_raises sampleReg "sample_tool" [("a", 1)]).2 (by decide)
      (unknown_tool_message "sample_tool")

/-- C10: registering a second function under an existing name replaces the
single callable binding (`tool_names` still lists the name once and lookup
returns the later function) while `schemas` keeps the stale descriptor and
gains the new one; in general the schema list grows by one per `register`
call, so its length is the number of register calls, not the number of
distinct names. -/
theorem c10_reregister_duplicates_schema (f g : PyFunc) (h : f.name = g.name) :
    ((emptyRegistry.register f).register g).tool_names = [f.name]
    ∧ ((emptyRegistry.register f).register g).schemas
        = [buildSchema f, buildSchema g]
    ∧ lookupTool ((emptyRegistry.register f).register g) f.name = some g
    ∧ ∀ (reg : ToolRegistry) (fs : List PyFunc),
        (registerAll reg fs).schemas.length = reg.schemas.length + fs.length := by
  have hone : emptyRegistry.register f
      = { tools := [(f.name, f)], schemas := [buildSchema f] } := by
    simp [ToolRegistry.register, emptyRegistry, dictInsert]
  have htwo : (emptyRegistry.register f).register g
      = { tools := [(g.name, g)], schemas := [buildSchema f, buildSchema g] } := by
    rw [hone]
    simp [ToolRegistry.register, dictInsert, h]
  refine ⟨?_, ?_, ?_, ?_⟩
  · rw [htwo]; simp [ToolRegistry.tool_names, h]
  · rw [htwo]
  · rw [htwo]
    simp [lookupTool, List.lookup, h]
  · intro reg fs
    induction fs generalizing reg with
    | nil => simp [registerAll]
    | cons a as ih =>
      have : registerAll reg (a :: as) = registerAll (reg.register a) as := rfl
      rw [this, ih]
      simp [ToolRegistry.register]
      omega

/-- Witness for C10: two distinct callables both named `dup_tool`. -/
theorem c10_reregister_duplicates_schema_witness :
    ((emptyRegistry.register dupFuncA).register dupFuncB).tool_names = ["dup_tool"]
    ∧ ((emptyRegistry.register dupFuncA).register dupFuncB).schemas
        = [buildSchema dupFuncA, buildSchema dupFuncB]
    ∧ lookupTool ((emptyRegistry.register dupFuncA).register dupFuncB) "dup_tool"
        = some dupFuncB
    ∧ (registerAll emptyRegistry [dupFuncA, dupFuncB]).schemas.length
        = emptyRegistry.schemas.length + 2 := by
  have h := c10_reregister_duplicates_schema dupFuncA dupFuncB rfl
  exact ⟨h.1, h.2.1, h.2.2.1, h.2.2.2 emptyRegistry [dupFuncA, dupFuncB]⟩

/-- Helper: starting a turn with a null `_done_result`, the per-call
done-check fires exactly at the first `done` call of the turn. -/
theorem runCalls_none_eq (calls : List MCall) :
    runCalls calls none = (firstDone calls, firstDone calls) := by
  induction calls with
  | nil => rfl
  | cons c rest ih =>
    cases c with
    | done s => rfl
    | other n => simpa [runCalls, firstDone] using ih

/-- Helper: the first `done` of a call list that opens with done-free calls
is the explicit one. -/
theorem firstDone_append_done (pre post : List MCall) (s : String)
    (h : firstDone pre = none) :
    firstDone (pre ++ MCall.done s :: post) = some s := by
  induction pre with
  | nil => rfl
  | cons c rest ih =>
    cases c with
    | done t => simp [firstDone] at h
    | other n =>
      simp only [firstDone] at h ⊢
      exact ih h

/-- Helper: a turn whose calls contain no `done` hands control to the next
iteration with the signal still null. -/
theorem loopIter_quiet_step (b : ℕ → MResponse) (turn fuel : ℕ)
    (h1 : (b turn).tool_calls ≠ [])
    (h2 : firstDone (b turn).tool_calls = none) :
    loopIter b turn (fuel + 1) none = loopIter b (turn + 1) fuel none := by
  simp [loopIter, h1, runCalls_none_eq, h2]

/-- Helper: `k` consecutive quiet turns advance the loop `k` iterations. -/
theorem loopIter_skip (b : ℕ → MResponse) (k : ℕ) :
    ∀ fuel turn, k ≤ fuel →
    (∀ u, turn ≤ u → u < turn + k →
      (b u).tool_calls ≠ [] ∧ firstDone (b u).tool_calls = none) →
    loopIter b turn fuel none = loopIter b (turn + k) (fuel - k) none := by
  induction k with
  | zero => intro fuel turn _ _; simp
  | succ n ih =>
    intro fuel turn hk h
    cases fuel with
    | zero => omega
    | succ f =>
      have h0 := h turn le_rfl (by omega)
      rw [loopIter_quiet_step b turn f h0.1 h0.2]
      rw [ih f (turn + 1) (by omega) (fun u hu1 hu2 => h u (by omega) (by omega))]
      have e1 : turn + 1 + n = turn + (n + 1) := by omega
      have e2 : f - n = f + 1 - (n + 1) := by omega
      rw [e1, e2]

/-- C3: `run_loop` nulls the termination signal on entry (the initial agent
state is irrelevant), and when the model's turn `t` — within the iteration
cap, after done-free turns — issues a `done` call with summary `s` preceded
only by non-done calls, the loop returns exactly `s` from that call,
whatever calls follow it in the same turn and however many iterations
remain. -/
theorem c3_done_short_circuit (a : AgentState) (b : ℕ → MResponse)
    (max_iterations t : ℕ) (s : String) (pre post : List MCall)
    (h1 : 1 ≤ t) (h2 : t ≤ max_iterations)
    (hquiet : ∀ u, u < t → 1 ≤ u →
      (b u).tool_calls ≠ [] ∧ firstDone (b u).tool_calls = none)
    (hcalls : (b t).tool_calls = pre ++ MCall.done s :: post)
    (hpre : firstDone pre = none) :
    run_loop a b max_iterations = s := by
  have hfd : firstDone (b t).tool_calls = some s := by
    rw [hcalls]; exact firstDone_append_done pre post s hpre
  have hne : (b t).tool_calls ≠ [] := by
    rw [hcalls]; simp
  unfold run_loop
  rw [loopIter_skip b (t - 1) max_iterations 1 (by omega)
    (fun u hu1 hu2 => hquiet u (by omega) hu1)]
  have e1 : 1 + (t - 1) = t := by omega
  rw [e1]
  obtain ⟨f, hf⟩ : ∃ f, max_iterations - (t - 1) = f + 1 :=
    ⟨max_iterations - t, by omega⟩
  rw [hf]
  simp [loopIter, hne, runCalls_none_eq, hfd]

/-- Witness for C3: a model that calls `done` with summary `X` on turn 3 of
5, sandwiched between other calls, returns exactly `X` regardless of the
stale initial state. -/
theorem c3_done_short_circuit_witness :
    (1 : ℕ) ≤ 3 ∧ (3 : ℕ) ≤ 5
    ∧ (∀ u, u < 3 → 1 ≤ u →
        (doneAtThree u).tool_calls ≠ [] ∧ firstDone (doneAtThree u).tool_calls = none)
    ∧ (doneAtThree 3).tool_calls
        = [MCall.other "get_mascal_summary"] ++ MCall.done "X" :: [MCall.other "get_entity"]
    ∧ run_loop { done_result := some "stale" } doneAtThree 5 = "X" :=
  ⟨by decide, by decide, by decide, by decide,
    c3_done_short_circuit { done_result := some "stale" } doneAtThree 5 3 "X"
      [MCall.other "get_mascal_summary"] [MCall.other "get_entity"]
      (by decide) (by decide) (by decide) (by decide) rfl⟩

/-- C4: a model that issues a non-done tool call on every turn through the
iteration cap makes `run_loop` return the fixed incomplete-analysis string,
not the last partial assistant text; and a turn without tool calls (after
done-free tool-calling turns) ends the loop returning that message's
content. -/
theorem c4_cap_and_no_calls (a : AgentState) (b : ℕ → MResponse)
    (max_iterations : ℕ) :
    ((∀ u, u ≤ max_iterations → 1 ≤ u →
        (b u).tool_calls ≠ [] ∧ firstDone (b u).tool_calls = none) →
      run_loop a b max_iterations = incompleteMsg)
    ∧ (∀ t, 1 ≤ t → t ≤ max_iterations →
        (∀ u, u < t → 1 ≤ u →
          (b u).tool_calls ≠ [] ∧ firstDone (b u).tool_calls = none) →
        (b t).tool_calls = [] →
        run_loop a b max_iterations = (b t).content) := by
  constructor
  · intro h
    unfold run_loop
    rw [loopIter_skip b max_iterations max_iterations 1 le_rfl
      (fun u hu1 hu2 => h u (by omega) hu1)]
    simp [loopIter]
  · intro t ht1 ht2 hquiet hempty
    unfold run_loop
    rw [loopIter_skip b (t - 1) max_iterations 1 (by omega)
      (fun u hu1 hu2 => hquiet u (by omega) hu1)]
    have e1 : 1 + (t - 1) = t := by omega
    rw [e1]
    obtain ⟨f, hf⟩ : ∃ f, max_iterations - (t - 1) = f + 1 :=
      ⟨max_iterations - t, by omega⟩
    rw [hf]
    simp [loopIter, hempty]

/-- Witness for C4: a model that never stops is cut off with the fixed
incomplete message after 4 iterations, and a model that answers without tool
calls on turn 1 returns its content. -/
theorem c4_cap_and_no_calls_witness :
    run_loop { done_result := none } neverDone 4 = incompleteMsg
    ∧ run_loop { done_result := none } noCalls 4 = "final answer" := by
  constructor
  · exact (c4_cap_and_no_calls { done_result := none } neverDone 4).1 (by decide)
  · exact (c4_cap_and_no_calls { done_result := none } noCalls 4).2 1 (by decide)
      (by decide) (by decide) (by decide)

/-- C8: on a successful nearby-entities fetch,
`find_nearest_facility_by_role` answers with `success = true` and null data
and an inform action whenever there is no medical facility in radius or none
meets the role floor (no error), and otherwise returns the single nearest
eligible facility together with at most three runners-up, all drawn from the
eligible set, sorted ascending by distance, the nearest minimizing the
distance over the whole eligible set. -/
theorem c8_nearest_facility (dist : Entity → ℚ) (min_role max_distance_m : ℤ)
    (entities : List Entity) :
    (facilitiesOf entities = [] ∨ eligibleOf dist min_role entities = [] →
      (find_nearest_facility_by_role dist min_role max_distance_m entities).success
        = true
      ∧ (find_nearest_facility_by_role dist min_role max_distance_m entities).data
        = none
      ∧ (find_nearest_facility_by_role dist min_role max_distance_m entities).action
        = some "inform")
    ∧ (eligibleOf dist min_role entities ≠ [] →
      find_nearest_facility_by_role dist min_role max_distance_m entities
        = { success := true
          , data := some ((sortedEligible dist min_role entities).headI,
              (sortedEligible dist min_role entities).tail.take 3)
          , message := none, action := none }
      ∧ ((sortedEligible dist min_role entities).tail.take 3).length ≤ 3
      ∧ List.Sorted byDistance ((sortedEligible dist min_role entities).headI
          :: (sortedEligible dist min_role entities).tail.take 3)
      ∧ (sortedEligible dist min_role entities).headI
          ∈ eligibleOf dist min_role entities
      ∧ (∀ r ∈ (sortedEligible dist min_role entities).tail.take 3,
          r ∈ eligibleOf dist min_role entities)
      ∧ (∀ r ∈ eligibleOf dist min_role entities,
          (sortedEligible dist min_role entities).headI.distance_m
            ≤ r.distance_m)) := by
  constructor
  · rintro (h | h)
    · simp [find_nearest_facility_by_role, h]
    · by_cases hf : facilitiesOf entities = []
      · simp [find_nearest_facility_by_role, hf]
      · simp [find_nearest_facility_by_role, hf, h]
  · intro hne
    have hfac : facilitiesOf entities ≠ [] := by
      intro h0
      exact hne (by simp [eligibleOf, h0])
    have hperm := List.perm_insertionSort byDistance
      (eligibleOf dist min_role entities)
    have hsorted := List.sorted_insertionSort byDistance
      (eligibleOf dist min_role entities)
    rcases hs : List.insertionSort byDistance (eligibleOf dist min_role entities)
      with _ | ⟨n, rest⟩
    · rw [hs] at hperm
      exact absurd hperm.symm.eq_nil hne
    · rw [hs] at hperm hsorted
      have hsortedE : sortedEligible dist min_role entities = n :: rest := hs
      have htl : Prod.mk (sortedEligible dist min_role entities).headI
          ((sortedEligible dist min_role entities).tail.take 3)
          = (n, rest.take 3) := by
        rw [hsortedE]
        rfl
      have hsort3 : List.Sorted byDistance (n :: rest.take 3) :=
        List.Pairwise.sublist
          (List.Sublist.cons₂ n (List.take_sublist 3 rest)) hsorted
      refine ⟨?_, ?_, ?_, ?_, ?_, ?_⟩
      · simp only [find_nearest_facility_by_role, if_neg hfac, if_neg hne, hs]
        rw [hsortedE]
        rfl
      · rw [hsortedE]
        exact le_trans (List.length_take_le 3 rest) le_rfl
      · rw [hsortedE]
        exact hsort3
      · rw [hsortedE]
        exact hperm.mem_iff.mp (List.mem_cons_self n rest)
      · rw [hsortedE]
        intro r hr
        exact hperm.mem_iff.mp
          (List.mem_cons_of_mem n (List.take_subset 3 rest hr))
      · rw [hsortedE]
        intro r hr
        have hrm : r ∈ n :: rest := hperm.mem_iff.mpr hr
        rcases List.mem_cons.mp hrm with he | hm
        · rw [he]
          exact le_rfl
        · exact List.rel_of_sorted_cons hsorted r hm

/-- Witness for C8: over the concrete entity set, a role-4 floor leaves no
eligible facility (null data, inform), while a role-1 floor returns the
nearest facility plus runners-up sorted by distance. -/
theorem c8_nearest_facility_witness :
    ((find_nearest_facility_by_role wdist 4 50000 wEnts).data = none
      ∧ (find_nearest_facility_by_role wdist 4 50000 wEnts).action = some "inform")
    ∧ (find_nearest_facility_by_role wdist 1 50000 wEnts
        = { success := true
          , data := some ((sortedEligible wdist 1 wEnts).headI,
              (sortedEligible wdist 1 wEnts).tail.take 3)
          , message := none, action := none }
      ∧ List.Sorted byDistance ((sortedEligible wdist 1 wEnts).headI
          :: (sortedEligible wdist 1 wEnts).tail.take 3)
      ∧ (sortedEligible wdist 1 wEnts).headI ∈ eligibleOf wdist 1 wEnts) := by
  have h1 := (c8_nearest_facility wdist 4 50000 wEnts).1 (Or.inr (by decide))
  have h2 := (c8_nearest_facility wdist 1 50000 wEnts).2 (by decide)
  exact ⟨⟨h1.2.1, h1.2.2⟩, h2.1, h2.2.2.1, h2.2.2.2.1⟩

end LataccMedevac
